import Mathlib

set_option maxRecDepth 4000

/-!
Verification of the chuckbot Twitch client (package `twitchbot`) against its
natural-language specification.  The Go source in `pkg/twitchbot/main.go` is
shallowly embedded below: machine state (the `Bot` struct) becomes a Lean
structure, the three compiled regular expressions become deterministic
matching functions with the same semantics on the inputs the program sees,
durations are counted in nanoseconds (Go `time.Duration`), and the buffered
outbound channel becomes a FIFO list of capacity `maxMessageQueueLength`.
A channel send that would block is modelled as the value `none`.
-/

namespace Chuckbot

/-- Go `time.Second` in nanoseconds. -/
def second : Nat := 1000000000

/-- Source: `var chatRateLimit = 30 * time.Second / 20` (nanoseconds). -/
def chatRateLimit : Nat := 30 * second / 20

/-- Source: `const maxMessageQueueLength = 10`. -/
def maxMessageQueueLength : Nat := 10

/-- Source: `authenticationErrorMessage`. -/
def authenticationErrorMessage : String :=
  ":tmi.twitch.tv NOTICE * :Login authentication failed"

/-- Source: `pingMessage`. -/
def pingMessage : String := "PING :tmi.twitch.tv"

/-- Source: `messageRateNotice`. -/
def messageRateNotice : String :=
  "Your message was not sent because you are sending messages too quickly."

/-- Source: `whisperDeniedNotice`. -/
def whisperDeniedNotice : String :=
  "Your settings prevent you from sending this whisper."

/-- The greeting sent at the top of `listenToChat`. -/
def greetingMessage : String :=
  "Hello everyone! Type `!chucknorris` to get some Chuck Norris facts!"

/-- Go regexp `\w`: ASCII letters, digits and underscore. -/
def isWordChar (c : Char) : Bool := c.isAlphanum || c = '_'

/-- Consume an expected literal character sequence, returning the rest. -/
def dropLiteral : List Char → List Char → Option (List Char)
  | [], cs => some cs
  | _ :: _, [] => none
  | l :: ls, c :: cs => if c = l then dropLiteral ls cs else none

/-- Consume a maximal nonempty run of word characters (`\w+`).  Failure when
the first character is not a word character.  Because every occurrence of
`\w+` in the source regexes is followed by a character that `\w` cannot
match, maximal munch coincides with the backtracking semantics of Go's
regexp engine here. -/
def takeWordRun (cs : List Char) : Option (List Char × List Char) :=
  let run := cs.takeWhile isWordChar
  if run.isEmpty then none else some (run, cs.dropWhile isWordChar)

/-- Source: `messageRegex`, the pattern
`^:(\w+)!\w+@\w+\.tmi\.twitch\.tv ((PRIVMSG|WHISPER) #?\w+ :(.*))$`
applied with `FindStringSubmatch`.  Returns the four capture groups
(username, full message, message type, message body).  The final `(.*)$`
cannot cross a newline, hence the `contains` test. -/
def messageRegexMatch (line : String) : Option (String × String × String × String) := do
  let cs1 ← dropLiteral ":".data line.data
  let (user, cs2) ← takeWordRun cs1
  let cs3 ← dropLiteral "!".data cs2
  let (_, cs4) ← takeWordRun cs3
  let cs5 ← dropLiteral "@".data cs4
  let (_, cs6) ← takeWordRun cs5
  let cs7 ← dropLiteral ".tmi.twitch.tv ".data cs6
  let full := cs7
  let (mtype, cs8) ←
    match dropLiteral "PRIVMSG".data cs7 with
    | some r => some ("PRIVMSG", r)
    | none =>
      match dropLiteral "WHISPER".data cs7 with
      | some r => some ("WHISPER", r)
      | none => none
  let cs9 ← dropLiteral " ".data cs8
  let cs10 := match cs9 with
    | '#' :: r => r
    | r => r
  let (_, cs11) ← takeWordRun cs10
  let cs12 ← dropLiteral " :".data cs11
  if cs12.contains '\n' then none
  else some (String.mk user, String.mk full, mtype, String.mk cs12)

/-- Source: `noticeRegex`, the pattern
`^:tmi\.twitch\.tv NOTICE #\w+ :(.+)` applied with `FindStringSubmatch`.
Returns the single capture group (the notice text).  The pattern is not
end-anchored; the greedy `(.+)` captures up to the end of the line (or up
to a newline, which read lines never contain). -/
def noticeRegexMatch (line : String) : Option String := do
  let cs1 ← dropLiteral ":tmi.twitch.tv NOTICE #".data line.data
  let (_, cs2) ← takeWordRun cs1
  let cs3 ← dropLiteral " :".data cs2
  let captured := cs3.takeWhile (fun c => c ≠ '\n')
  if captured.isEmpty then none else some (String.mk captured)

/-- Source: `commandRegex`, the pattern `!(\w+)` applied with
`FindStringSubmatch`: leftmost match of a bang followed by a nonempty word
run, returning the word run (capture group 1). -/
def commandScan : List Char → Option String
  | [] => none
  | c :: rest =>
    if c = '!' then
      let run := rest.takeWhile isWordChar
      if run.isEmpty then commandScan rest else some (String.mk run)
    else commandScan rest

/-- Go `strings.Trim(s, " ")`: strip leading and trailing space characters. -/
def trimSpace (s : String) : String :=
  String.mk (((s.data.dropWhile (fun c => c = ' ')).reverse.dropWhile
    (fun c => c = ' ')).reverse)

/-- Source: `Bot.writeToTwitch`.  Formats `"<command> <message>\r\n"`; if the
formatted line exceeds 512 bytes it is dropped with a warning (`none`),
otherwise exactly the formatted line is written to the transport
(`some line`). -/
def writeToTwitch (command message : String) : Option String :=
  let fullMessage := command ++ " " ++ message ++ "\r\n"
  if fullMessage.utf8ByteSize > 512 then none
  else some fullMessage

/-- Source: `Bot.pong`: `writeToTwitch("PONG", ":tmi.twitch.tv")` on the raw
write path. -/
def pong : Option String := writeToTwitch "PONG" ":tmi.twitch.tv"

/-- Source: `Bot.queueMessage`, the send `bot.messageChannel <- msg` on a
buffered channel of capacity `maxMessageQueueLength`.  The send completes
immediately (appending at the tail) iff the buffer is below capacity;
`none` models the caller blocking until the drain frees a slot. -/
def queueMessage (q : List String) (msg : String) : Option (List String) :=
  if q.length < maxMessageQueueLength then some (q ++ [msg]) else none

/-- Source: `Bot.chat`.  An empty message is only warned about (`some q`,
nothing enqueued); otherwise `"#<channel> :<message>\r\n"` is enqueued via
`queueMessage` (with `none` again modelling a blocked send). -/
def chat (channelName : String) (q : List String) (message : String) :
    Option (List String) :=
  if message = "" then some q
  else queueMessage q ("#" ++ channelName ++ " :" ++ message ++ "\r\n")

/-- Source: `Bot.whisper`.  When whispers are disabled the call returns
without producing anything; an empty message is only warned about;
otherwise `"#<user> :/w <user> <message>\r\n"` is enqueued. -/
def whisper (whispersDisabled : Bool) (q : List String)
    (username message : String) : Option (List String) :=
  if whispersDisabled then some q
  else if message = "" then some q
  else queueMessage q
    ("#" ++ username ++ " :/w " ++ username ++ " " ++ message ++ "\r\n")

/-- Source: `Bot.replyWithChuckFact`.  The external fetch result is passed
in: on error nothing is produced; on success `"<username>: <fact>"` goes
through `chat`. -/
def replyWithChuckFact (fetch : Except String String)
    (username channelName : String) (q : List String) : List String :=
  match fetch with
  | Except.error _ => q
  | Except.ok fact => (chat channelName q (username ++ ": " ++ fact)).getD q

/-- Session state carried by the `Bot` struct fields that the session loop
reads or writes. -/
structure BotState where
  channelName : String
  whisperAutoResponse : String
  whispersDisabled : Bool
  messageChannel : List String
  reconnectWaitTime : Nat
deriving DecidableEq

/-- Source: `backoffConnectionRate`: a zero wait becomes one second,
otherwise the wait doubles. -/
def backoffConnectionRate (w : Nat) : Nat := if w = 0 then second else w * 2

/-- Source: `connect`, unrolled over the number of consecutive dial
failures.  Each failure sleeps the current wait, then backs off, then
retries; the call returns only on success.  Result: the list of sleeps
performed, in order, and the final wait value. -/
def connectRun : Nat → Nat → List Nat × Nat
  | w, 0 => ([], w)
  | w, Nat.succ k =>
    let r := connectRun (backoffConnectionRate w) k
    (w :: r.1, r.2)

/-- Result of handling one successfully read line in `listenToChat`:
the updated session state, the lines written on the raw (unqueued) write
path while handling it, and whether the loop returned nil (the
authentication-failure case). -/
structure StepResult where
  bot : BotState
  rawWrites : List String
  terminated : Bool
deriving DecidableEq

/-- Source: the inner `switch noticeMessage` of `listenToChat`: the
send-rate notice is only logged; the whisper-denied notice additionally
sets `WhispersDisabled`; any other notice text falls through to the
`continue`. -/
def handleNotice (bot : BotState) (noticeMessage : String) : BotState :=
  if noticeMessage = messageRateNotice then bot
  else if noticeMessage = whisperDeniedNotice then
    { bot with whispersDisabled := true }
  else bot

/-- Source: the `switch messageType` of `listenToChat`.  A PRIVMSG body is
scanned for a command; only the exact command `chucknorris` dispatches, and
only when the queue is observed below capacity (otherwise the fetch is
skipped).  A WHISPER triggers the auto-response via `whisper`; a blocked
send (`none`) leaves the queue unchanged at this step. -/
def handleChatMatch (bot : BotState) (fetch : Except String String)
    (username messageType message : String) : BotState :=
  if messageType = "PRIVMSG" then
    match commandScan message.data with
    | some raw =>
      if trimSpace raw = "chucknorris" then
        if bot.messageChannel.length < maxMessageQueueLength then
          { bot with messageChannel :=
              replyWithChuckFact fetch username bot.channelName bot.messageChannel }
        else bot
      else bot
    | none => bot
  else if messageType = "WHISPER" then
    { bot with messageChannel :=
        (whisper bot.whispersDisabled bot.messageChannel username
          bot.whisperAutoResponse).getD bot.messageChannel }
  else bot

/-- Source: the body of the read loop of `listenToChat` for one
successfully read line, in the source's priority order: exact
authentication-failure match (return nil), exact keepalive match (write
PONG on the raw path and continue), notice-regex match, message-regex
match, otherwise only the verbatim log.  `fetch` is the result the
external fact capability would return if this line dispatches it. -/
def processLine (bot : BotState) (fetch : Except String String)
    (line : String) : StepResult :=
  if line = authenticationErrorMessage then
    { bot := bot, rawWrites := [], terminated := true }
  else if line = pingMessage then
    { bot := bot, rawWrites := pong.toList, terminated := false }
  else
    match noticeRegexMatch line with
    | some noticeMessage =>
      { bot := handleNotice bot noticeMessage, rawWrites := [], terminated := false }
    | none =>
      match messageRegexMatch line with
      | some (username, _fullMessage, messageType, message) =>
        { bot := handleChatMatch bot fetch username messageType message,
          rawWrites := [], terminated := false }
      | none => { bot := bot, rawWrites := [], terminated := false }

/-- One read from the transport: either a line (together with the fact the
external fetch capability would supply for it) or a read error. -/
inductive ReadEvent where
  | line (s : String) (fetch : Except String String)
  | readError

/-- How `listenToChat` returned: nil (clean exit) after the
authentication-failure line, or an error after a failed read. -/
inductive ListenOutcome where
  | cleanExit
  | readFailure
deriving DecidableEq

/-- Source: the read loop of `listenToChat` over a finite prefix of reads.
Returns the final state, all raw-path writes in order, and the outcome
(`none` when the given reads ran out with the loop still listening). -/
def listenLoop (bot : BotState) :
    List ReadEvent → BotState × List String × Option ListenOutcome
  | [] => (bot, [], none)
  | ReadEvent.readError :: _ => (bot, [], some ListenOutcome.readFailure)
  | ReadEvent.line s f :: rest =>
    let r := processLine bot f s
    if r.terminated then (r.bot, r.rawWrites, some ListenOutcome.cleanExit)
    else
      let cont := listenLoop r.bot rest
      (cont.1, r.rawWrites ++ cont.2.1, cont.2.2)

/-- Source: `listenToChat`: `createMessageChannel` makes a fresh queue,
the greeting is sent through `chat`, then the read loop runs.  The
deferred `disconnect` is recorded by the caller. -/
def listenToChat (bot : BotState) (reads : List ReadEvent) :
    BotState × List String × Option ListenOutcome :=
  let bot1 : BotState := { bot with messageChannel := [] }
  let greeted : List String :=
    (chat bot1.channelName bot1.messageChannel greetingMessage).getD
      bot1.messageChannel
  let bot2 : BotState := { bot1 with messageChannel := greeted }
  listenLoop bot2 reads

/-- Environment of one iteration of the retry loop in `Start`: how many
consecutive dial failures `connect` sees, then the reads delivered. -/
structure CycleInput where
  connectFailures : Nat
  reads : List ReadEvent

/-- Observable trace of one iteration of the retry loop in `Start`. -/
structure CycleTrace where
  sleeps : List Nat
  outcome : Option ListenOutcome
  disconnected : Bool
deriving DecidableEq

/-- Source: the body of the `for` loop in `Start`: reset
`reconnectWaitTime` to zero, `connect` (sleeping and backing off per
failure), handshake writes, then `listenToChat`.  The deferred
`disconnect` runs exactly when `listenToChat` returns. -/
def runCycle (bot : BotState) (c : CycleInput) : BotState × CycleTrace :=
  let bot0 : BotState := { bot with reconnectWaitTime := 0 }
  let cr := connectRun bot0.reconnectWaitTime c.connectFailures
  let bot1 : BotState := { bot0 with reconnectWaitTime := cr.2 }
  let r := listenToChat bot1 c.reads
  (r.1, { sleeps := cr.1, outcome := r.2.2, disconnected := (r.2.2).isSome })

/-- Source: the `for` loop in `Start`: iterate cycles for as long as
`listenToChat` returns an error; stop looping on a nil return (and when
the modelled input runs out). -/
def startRun (bot : BotState) : List CycleInput → List CycleTrace
  | [] => []
  | c :: rest =>
    let r := runCycle bot c
    match r.2.outcome with
    | some ListenOutcome.readFailure => r.2 :: startRun r.1 rest
    | _ => [r.2]

/-- Enqueue a list of messages in order (repeated `queueMessage` sends);
`none` as soon as one send would block. -/
def enqueueAll (q : List String) : List String → Option (List String)
  | [] => some q
  | m :: rest =>
    match queueMessage q m with
    | none => none
    | some q2 => enqueueAll q2 rest

/-- Source: the drain goroutine of `createMessageChannel`: each received
message goes through `writeToTwitch "PRIVMSG"`; the writes happen in queue
order. -/
def drainWrites (msgs : List String) : List (Option String) :=
  msgs.map (fun m => writeToTwitch "PRIVMSG" m)

/-- Drain schedule: the i-th queued item is written at time
`i * chatRateLimit` (nanoseconds), since the drain goroutine sleeps
`chatRateLimit` after each write. -/
def drainTimes (n : Nat) : List Nat :=
  (List.range n).map (fun i => i * chatRateLimit)

/-- A concrete bot configuration used by witnesses and counterexamples. -/
def botEx : BotState :=
  { channelName := "mikkeever", whisperAutoResponse := "auto",
    whispersDisabled := false, messageChannel := [], reconnectWaitTime := 0 }

/-- A queue already holding its full capacity of ten items. -/
def fullQueue : List String := List.replicate 10 "queued"

/-- A message whose formatted line exceeds 512 bytes. -/
def longMessage : String := String.mk (List.replicate 600 'a')

/-- A well-formed fact-command line from user bob. -/
def bobCommandLine : String := ":bob!bob@bob.tmi.twitch.tv PRIVMSG #chan :!chucknorris"

/-- The server notice that refuses a whisper, addressed to a channel. -/
def whisperDeniedLine : String :=
  ":tmi.twitch.tv NOTICE #chan :Your settings prevent you from sending this whisper."

/-- A well-formed direct-message (WHISPER) line from user dave. -/
def whisperLine : String := ":dave!dave@dave.tmi.twitch.tv WHISPER carlosray :hello bot"

lemma enqueueAll_ok : ∀ (msgs q : List String),
    q.length + msgs.length ≤ maxMessageQueueLength →
    enqueueAll q msgs = some (q ++ msgs) := by
  intro msgs
  induction msgs with
  | nil => intro q _; simp [enqueueAll]
  | cons m rest ih =>
    intro q h
    have hq : q.length < maxMessageQueueLength := by
      have := h
      simp [List.length_cons] at this
      omega
    have hsend : queueMessage q m = some (q ++ [m]) := by
      simp [queueMessage, hq]
    have hlen : (q ++ [m]).length + rest.length ≤ maxMessageQueueLength := by
      simp [List.length_append] at h ⊢
      omega
    simp [enqueueAll, hsend, ih (q ++ [m]) hlen, List.append_assoc]

lemma writeToTwitch_drop (command message : String)
    (h : (command ++ " " ++ message ++ "\r\n").utf8ByteSize > 512) :
    writeToTwitch command message = none := by
  simp [writeToTwitch, h]

lemma writeToTwitch_fit (command message : String)
    (h : (command ++ " " ++ message ++ "\r\n").utf8ByteSize ≤ 512) :
    writeToTwitch command message = some (command ++ " " ++ message ++ "\r\n") := by
  simp [writeToTwitch, Nat.not_lt.mpr h]

/-- C5: for every command and message, if the formatted line
`"<command> <message>\r\n"` exceeds 512 bytes then `writeToTwitch` writes
nothing (the line is dropped, never truncated or split); otherwise exactly
the formatted line is written. -/
theorem C5_writeToTwitch_length_gate (command message : String) :
    ((command ++ " " ++ message ++ "\r\n").utf8ByteSize > 512 →
      writeToTwitch command message = none) ∧
    ((command ++ " " ++ message ++ "\r\n").utf8ByteSize ≤ 512 →
      writeToTwitch command message = some (command ++ " " ++ message ++ "\r\n")) :=
  ⟨writeToTwitch_drop command message, writeToTwitch_fit command message⟩

/-- Witness for C5: a 600-byte payload is dropped; the short keepalive
reply is written verbatim. -/
theorem C5_witness :
    writeToTwitch "PRIVMSG" longMessage = none ∧
    writeToTwitch "PONG" ":tmi.twitch.tv" = some "PONG :tmi.twitch.tv\r\n" :=
  ⟨(C5_writeToTwitch_length_gate "PRIVMSG" longMessage).1 (by decide),
   (C5_writeToTwitch_length_gate "PONG" ":tmi.twitch.tv").2 (by decide)⟩

/-- C2 counterexample: the whisper producer at full queue.  The claim says
every producer either drops the item with a warning or skips producing it
after a depth check; but `whisper` (like the greeting's `chat`) calls the
blocking channel send `queueMessage` with no depth check, and at capacity
that send blocks the producing goroutine (modelled as `none`) instead of
dropping or skipping. -/
theorem C2_counterexample :
    whisper false fullQueue "alice" "hello" = none ∧
    queueMessage fullQueue "hello" = none := by
  constructor <;> decide

/-- C2 amended: a below-capacity send appends at the tail, leaving the
order of the queued items unchanged; a send at capacity blocks the
producing goroutine (`none`) — it neither drops nor corrupts the queue —
and of the producers only the fact-command path in `listenToChat` checks
the queue depth first and skips the fetch, so the session read loop itself
never blocks on a full queue. -/
theorem C2_amended :
    (∀ (q : List String) (m : String), q.length < maxMessageQueueLength →
        queueMessage q m = some (q ++ [m])) ∧
    (∀ (q : List String) (m : String), ¬ q.length < maxMessageQueueLength →
        queueMessage q m = none) ∧
    (∀ (bot : BotState) (f : Except String String),
        ¬ bot.messageChannel.length < maxMessageQueueLength →
        processLine bot f bobCommandLine =
          { bot := bot, rawWrites := [], terminated := false }) := by
  refine ⟨?_, ?_, ?_⟩
  · intro q m h
    simp [queueMessage, h]
  · intro q m h
    simp [queueMessage, h]
  · intro bot f h
    have hnot : noticeRegexMatch bobCommandLine = none := by decide
    have hmsg : messageRegexMatch bobCommandLine =
        some ("bob", "PRIVMSG #chan :!chucknorris", "PRIVMSG", "!chucknorris") := by decide
    have h1 : ¬ bobCommandLine = authenticationErrorMessage := by decide
    have h2 : ¬ bobCommandLine = pingMessage := by decide
    have hcmd : commandScan "!chucknorris".data = some "chucknorris" := by decide
    simp only [processLine, if_neg h1, if_neg h2, hnot, hmsg]
    simp [handleChatMatch, hcmd, h, trimSpace]

/-- Witness for C2's amended theorem: with the queue at capacity the
fact-command line changes nothing. -/
theorem C2_amended_witness :
    processLine { botEx with messageChannel := fullQueue } (Except.ok "fact")
      bobCommandLine =
      { bot := { botEx with messageChannel := fullQueue },
        rawWrites := [], terminated := false } :=
  C2_amended.2.2 { botEx with messageChannel := fullQueue } (Except.ok "fact")
    (by decide)

/-- C8: enqueuing N items (N at most the capacity of 10) in order succeeds
and preserves order; the drain writes exactly the formatted items in
enqueue order (strict FIFO); and consecutive drain times are separated by
exactly the configured interval `chatRateLimit` of 1.5 seconds. -/
theorem C8_fifo_drain (msgs : List String)
    (hn : msgs.length ≤ maxMessageQueueLength)
    (hfit : ∀ m ∈ msgs, ("PRIVMSG" ++ " " ++ m ++ "\r\n").utf8ByteSize ≤ 512) :
    enqueueAll [] msgs = some msgs ∧
    drainWrites msgs = msgs.map (fun m => some ("PRIVMSG" ++ " " ++ m ++ "\r\n")) ∧
    (∀ i, i + 1 < msgs.length →
      (drainTimes msgs.length)[i]? = some (i * chatRateLimit) ∧
      (drainTimes msgs.length)[i + 1]? = some ((i + 1) * chatRateLimit) ∧
      i * chatRateLimit + chatRateLimit ≤ (i + 1) * chatRateLimit) := by
  refine ⟨?_, ?_, ?_⟩
  · have := enqueueAll_ok msgs [] (by simpa using hn)
    simpa using this
  · apply List.map_congr_left
    intro m hm
    exact writeToTwitch_fit "PRIVMSG" m (hfit m hm)
  · intro i hi
    refine ⟨?_, ?_, ?_⟩
    · simp [drainTimes, List.getElem?_map, List.getElem?_range,
        (by omega : i < msgs.length)]
    · simp [drainTimes, List.getElem?_map, List.getElem?_range, hi]
    · simp [Nat.succ_mul]

/-- Witness for C8: two items drain in order, one interval apart. -/
theorem C8_witness :
    enqueueAll [] ["one", "two"] = some ["one", "two"] ∧
    drainWrites ["one", "two"] = [some "PRIVMSG one\r\n", some "PRIVMSG two\r\n"] ∧
    (drainTimes 2)[0]? = some (0 * chatRateLimit) ∧
    (drainTimes 2)[1]? = some (1 * chatRateLimit) ∧
    0 * chatRateLimit + chatRateLimit ≤ 1 * chatRateLimit := by
  have h := C8_fifo_drain ["one", "two"] (by decide) (by decide)
  exact ⟨h.1, h.2.1, (h.2.2 0 (by decide)).1, (h.2.2 0 (by decide)).2.1,
    (h.2.2 0 (by decide)).2.2⟩

/-- C10: for every nonempty message, `chat` enqueues
`"#<channel> :<message>\r\n"` — a line that already carries a terminator —
and the drain hands it to `writeToTwitch`, which appends its own
terminator, so every chat line reaching the transport has the
doubled-terminator form `"PRIVMSG #<channel> :<message>\r\n\r\n"`; the
empty message enqueues nothing. -/
theorem C10_doubled_terminator (c m : String) (q : List String) :
    (m ≠ "" → q.length < maxMessageQueueLength →
      chat c q m = some (q ++ ["#" ++ c ++ " :" ++ m ++ "\r\n"])) ∧
    (("PRIVMSG #" ++ c ++ " :" ++ m ++ "\r\n\r\n").utf8ByteSize ≤ 512 →
      drainWrites ["#" ++ c ++ " :" ++ m ++ "\r\n"] =
        [some ("PRIVMSG #" ++ c ++ " :" ++ m ++ "\r\n\r\n")]) ∧
    chat c q "" = some q := by
  have hs : "PRIVMSG" ++ " " ++ ("#" ++ c ++ " :" ++ m ++ "\r\n") ++ "\r\n"
      = "PRIVMSG #" ++ c ++ " :" ++ m ++ "\r\n\r\n" := by
    apply String.ext
    simp [String.data_append]
  refine ⟨?_, ?_, ?_⟩
  · intro hm hq
    simp [chat, hm, queueMessage, hq]
  · intro hfit
    have hw := writeToTwitch_fit "PRIVMSG" ("#" ++ c ++ " :" ++ m ++ "\r\n")
      (by rw [hs]; exact hfit)
    simp [drainWrites, hw]
    exact hs
  · simp [chat]

/-- Witness for C10: a concrete chat line reaches the transport with the
doubled terminator. -/
theorem C10_witness :
    chat "mikkeever" [] "hi" = some ["#mikkeever :hi\r\n"] ∧
    drainWrites ["#mikkeever :hi\r\n"] =
      [some "PRIVMSG #mikkeever :hi\r\n\r\n"] := by
  have h := C10_doubled_terminator "mikkeever" "hi" []
  exact ⟨h.1 (by decide) (by decide), h.2.1 (by decide)⟩

/-- The line from the specification, with its abbreviated host `alice.tmi.x`. -/
def badHostLine : String :=
  ":alice!alice@alice.tmi.x PRIVMSG #chan :hello !chucknorris world"

/-- The same line with the full host suffix `messageRegex` requires. -/
def goodHostLine : String :=
  ":alice!alice@alice.tmi.twitch.tv PRIVMSG #chan :hello !chucknorris world"

/-- C4 counterexample: the claim's line carries the host `alice.tmi.x`, but
`messageRegex` demands the literal suffix `.tmi.twitch.tv` after the
sender's host name, so this exact line does not parse at all — it is not
classified as a channel message, and processing it produces no reaction. -/
theorem C4_counterexample :
    messageRegexMatch badHostLine = none ∧
    processLine botEx (Except.ok "fact") badHostLine =
      { bot := botEx, rawWrites := [], terminated := false } := by
  constructor <;> decide

/-- C4 amended: with the full host `alice.tmi.twitch.tv` the line parses as
a PRIVMSG channel message with sender `alice`, command extraction on the
body `hello !chucknorris world` yields `chucknorris`, and dispatch is
triggered: with the queue below capacity and a successful fetch, processing
the line enqueues the reply addressed to the channel. -/
theorem C4_amended (bot : BotState)
    (h : bot.messageChannel.length < maxMessageQueueLength) :
    messageRegexMatch goodHostLine =
      some ("alice", "PRIVMSG #chan :hello !chucknorris world", "PRIVMSG",
        "hello !chucknorris world") ∧
    commandScan "hello !chucknorris world".data = some "chucknorris" ∧
    trimSpace "chucknorris" = "chucknorris" ∧
    (processLine bot (Except.ok "fact") goodHostLine).bot.messageChannel =
      bot.messageChannel ++ ["#" ++ bot.channelName ++ " :alice: fact\r\n"] := by
  have h1 : ¬ goodHostLine = authenticationErrorMessage := by decide
  have h2 : ¬ goodHostLine = pingMessage := by decide
  have hnot : noticeRegexMatch goodHostLine = none := by decide
  have hmsg : messageRegexMatch goodHostLine =
      some ("alice", "PRIVMSG #chan :hello !chucknorris world", "PRIVMSG",
        "hello !chucknorris world") := by decide
  have hcmd : commandScan "hello !chucknorris world".data = some "chucknorris" := by
    decide
  have htrim : trimSpace "chucknorris" = "chucknorris" := by decide
  refine ⟨hmsg, hcmd, htrim, ?_⟩
  simp only [processLine, if_neg h1, if_neg h2, hnot, hmsg]
  simp [handleChatMatch, hcmd, htrim, h, replyWithChuckFact, chat, queueMessage]
  apply String.ext
  simp [String.data_append]

/-- Witness for C4's amended theorem, at an empty queue. -/
theorem C4_amended_witness :
    (processLine botEx (Except.ok "fact") goodHostLine).bot.messageChannel =
      botEx.messageChannel ++ ["#" ++ botEx.channelName ++ " :alice: fact\r\n"] :=
  (C4_amended botEx (by decide)).2.2.2

/-- C7: reading the exact keepalive-request line writes exactly one PONG
acknowledgement through the raw `writeToTwitch` path; the session state —
in particular the rate-limited outbound queue — is untouched, the loop
continues, and no other reaction is produced for that line. -/
theorem C7_ping_pong (bot : BotState) (f : Except String String) :
    processLine bot f pingMessage =
      { bot := bot, rawWrites := ["PONG :tmi.twitch.tv\r\n"],
        terminated := false } := rfl

/-- C9: receiving bob's `!chucknorris` channel message while the queue is
below capacity enqueues exactly one outbound item with payload
`"bob: fact"` addressed to the public channel when the fetch succeeds with
`"fact"`; when the fetch fails nothing is enqueued. -/
theorem C9_fact_dispatch (bot : BotState)
    (h : bot.messageChannel.length < maxMessageQueueLength) :
    (processLine bot (Except.ok "fact") bobCommandLine).bot.messageChannel =
      bot.messageChannel ++ ["#" ++ bot.channelName ++ " :bob: fact\r\n"] ∧
    (∀ e, (processLine bot (Except.error e) bobCommandLine).bot.messageChannel =
      bot.messageChannel) := by
  have h1 : ¬ bobCommandLine = authenticationErrorMessage := by decide
  have h2 : ¬ bobCommandLine = pingMessage := by decide
  have hnot : noticeRegexMatch bobCommandLine = none := by decide
  have hmsg : messageRegexMatch bobCommandLine =
      some ("bob", "PRIVMSG #chan :!chucknorris", "PRIVMSG", "!chucknorris") := by
    decide
  have hcmd : commandScan "!chucknorris".data = some "chucknorris" := by decide
  have htrim : trimSpace "chucknorris" = "chucknorris" := by decide
  constructor
  · simp only [processLine, if_neg h1, if_neg h2, hnot, hmsg]
    simp [handleChatMatch, hcmd, htrim, h, replyWithChuckFact, chat, queueMessage]
    apply String.ext
    simp [String.data_append]
  · intro e
    simp only [processLine, if_neg h1, if_neg h2, hnot, hmsg]
    simp [handleChatMatch, hcmd, htrim, h, replyWithChuckFact]

/-- Witness for C9, at an empty queue. -/
theorem C9_witness :
    (processLine botEx (Except.ok "fact") bobCommandLine).bot.messageChannel =
      botEx.messageChannel ++ ["#" ++ botEx.channelName ++ " :bob: fact\r\n"] ∧
    (processLine botEx (Except.error "boom") bobCommandLine).bot.messageChannel =
      botEx.messageChannel := by
  have h := C9_fact_dispatch botEx (by decide)
  exact ⟨h.1, h.2 "boom"⟩

lemma handleNotice_disabled_mono (bot : BotState) (n : String)
    (h : bot.whispersDisabled = true) :
    (handleNotice bot n).whispersDisabled = true := by
  unfold handleNotice
  repeat' split
  all_goals first | rfl | exact h

lemma handleChatMatch_disabled_eq (bot : BotState) (f : Except String String)
    (u mt m : String) :
    (handleChatMatch bot f u mt m).whispersDisabled = bot.whispersDisabled := by
  unfold handleChatMatch
  repeat' split
  all_goals rfl

lemma processLine_disabled_mono (bot : BotState) (f : Except String String)
    (line : String) (h : bot.whispersDisabled = true) :
    ((processLine bot f line).bot).whispersDisabled = true := by
  unfold processLine
  repeat' split
  all_goals
    first
      | exact h
      | exact handleNotice_disabled_mono bot _ h
      | (rw [handleChatMatch_disabled_eq]; exact h)

lemma listenLoop_disabled_mono (evs : List ReadEvent) : ∀ (bot : BotState),
    bot.whispersDisabled = true →
    ((listenLoop bot evs).1).whispersDisabled = true := by
  induction evs with
  | nil => intro bot h; simpa [listenLoop] using h
  | cons e rest ih =>
    intro bot h
    cases e with
    | readError => simpa [listenLoop] using h
    | line s f =>
      dsimp only [listenLoop]
      split
      · exact processLine_disabled_mono bot f s h
      · exact ih _ (processLine_disabled_mono bot f s h)

/-- C6: once set, the whisper-suppression flag survives every later step of
the session (and arbitrarily many further reads), suppressed whispers
produce no outbound item, the denied-whisper notice is what sets the flag,
and a direct message arriving with the flag set leaves the whole session
state unchanged. -/
theorem C6_whisper_flag_persistent :
    (∀ (bot : BotState) (f : Except String String) (line : String),
        bot.whispersDisabled = true →
        ((processLine bot f line).bot).whispersDisabled = true) ∧
    (∀ (bot : BotState) (evs : List ReadEvent),
        bot.whispersDisabled = true →
        ((listenLoop bot evs).1).whispersDisabled = true) ∧
    (∀ (q : List String) (u m : String), whisper true q u m = some q) ∧
    (∀ (bot : BotState) (f : Except String String),
        ((processLine bot f whisperDeniedLine).bot).whispersDisabled = true) ∧
    (∀ (bot : BotState) (f : Except String String),
        bot.whispersDisabled = true →
        processLine bot f whisperLine =
          { bot := bot, rawWrites := [], terminated := false }) := by
  refine ⟨processLine_disabled_mono, fun bot evs => listenLoop_disabled_mono evs bot,
    ?_, ?_, ?_⟩
  · intro q u m; rfl
  · intro bot f
    have h1 : ¬ whisperDeniedLine = authenticationErrorMessage := by decide
    have h2 : ¬ whisperDeniedLine = pingMessage := by decide
    have hnot : noticeRegexMatch whisperDeniedLine = some whisperDeniedNotice := by
      decide
    simp only [processLine, if_neg h1, if_neg h2, hnot]
    simp only [handleNotice,
      if_neg (show ¬ whisperDeniedNotice = messageRateNotice by decide)]
    rfl
  · intro bot f h
    obtain ⟨cn, wa, wd, mc, rwt⟩ := bot
    simp only at h
    subst h
    rfl

/-- Witness for C6: with the flag set, two further direct messages leave it
set. -/
theorem C6_witness :
    ((listenLoop { botEx with whispersDisabled := true }
        [ReadEvent.line whisperLine (Except.ok "x"),
         ReadEvent.line whisperLine (Except.ok "y")]).1).whispersDisabled = true :=
  C6_whisper_flag_persistent.2.1 { botEx with whispersDisabled := true } _ rfl

/-- The reconnect wait value after a number of consecutive backoff steps. -/
def waitIter (w : Nat) : Nat → Nat
  | 0 => w
  | Nat.succ n => backoffConnectionRate (waitIter w n)

lemma waitIter_shift (w : Nat) : ∀ k,
    waitIter (backoffConnectionRate w) k = backoffConnectionRate (waitIter w k)
  | 0 => rfl
  | k + 1 => by
    simp only [waitIter]
    rw [waitIter_shift w k]

lemma connectRun_snd : ∀ (n w : Nat), (connectRun w n).2 = waitIter w n := by
  intro n
  induction n with
  | zero => intro w; rfl
  | succ n ih =>
    intro w
    simp only [connectRun]
    rw [ih (backoffConnectionRate w), waitIter_shift]
    rfl

lemma connectRun_sleeps_get : ∀ (n w k : Nat), k < n →
    ((connectRun w n).1)[k]? = some (waitIter w k) := by
  intro n
  induction n with
  | zero => intro w k h; omega
  | succ n ih =>
    intro w k h
    cases k with
    | zero => simp [connectRun, waitIter]
    | succ k =>
      simp only [connectRun]
      rw [List.getElem?_cons_succ, ih (backoffConnectionRate w) k (by omega),
        waitIter_shift]
      rfl

lemma waitIter_zero (k : Nat) :
    waitIter 0 k = if k = 0 then 0 else second * 2 ^ (k - 1) := by
  induction k with
  | zero => rfl
  | succ k ih =>
    cases k with
    | zero => simp [waitIter, backoffConnectionRate, second]
    | succ k =>
      have h1 : ¬ (k + 1 = 0) := by omega
      rw [waitIter, ih, if_neg h1]
      have h2 : second * 2 ^ (k + 1 - 1) ≠ 0 := by
        simp [second]
      simp only [backoffConnectionRate, if_neg h2]
      rw [if_neg (by omega : ¬ (k + 2 = 0))]
      have : k + 2 - 1 = (k + 1 - 1) + 1 := by omega
      rw [this, pow_succ, Nat.mul_assoc]

/-- C1 counterexample: in a fresh cycle with exactly one failed attempt,
the wait inserted before attempt 2 is zero — `connect` sleeps the current
wait and only then doubles it — whereas the claim predicts
baseline * 2^(1-1), i.e. one full second. -/
theorem C1_counterexample :
    (runCycle botEx { connectFailures := 1, reads := [] }).2.sleeps = [0] ∧
    second * 2 ^ (1 - 1) ≠ 0 := by
  constructor
  · rfl
  · decide

/-- C1 amended: every cycle of the Start loop resets the wait to zero
before connecting (so after any successful connect the next failure cycle
restarts from zero); after k consecutive failures the wait inserted before
attempt k+1 is zero for k = 1 and baseline * 2^(k-2) for k >= 2; the
stored wait after all failures of the cycle equals baseline * 2^(n-1) for
n >= 1 failures. -/
theorem C1_amended_backoff (bot : BotState) (c : CycleInput) (k : Nat)
    (hk1 : 1 ≤ k) (hk2 : k ≤ c.connectFailures) :
    (runCycle bot c).2.sleeps = (connectRun 0 c.connectFailures).1 ∧
    ((runCycle bot c).2.sleeps)[k - 1]? =
      some (if k = 1 then 0 else second * 2 ^ (k - 2)) ∧
    (connectRun 0 c.connectFailures).2 =
      second * 2 ^ (c.connectFailures - 1) := by
  have hsl : (runCycle bot c).2.sleeps = (connectRun 0 c.connectFailures).1 := rfl
  refine ⟨hsl, ?_, ?_⟩
  · rw [hsl, connectRun_sleeps_get c.connectFailures 0 (k - 1) (by omega),
      waitIter_zero]
    rcases Nat.exists_eq_add_of_le hk1 with ⟨j, hj⟩
    subst hj
    by_cases hz : j = 0
    · subst hz; simp
    · rw [if_neg (by omega), if_neg (by omega)]
      congr 1
  · rw [connectRun_snd, waitIter_zero, if_neg (by omega)]

/-- Witness for C1's amended theorem: a dirty previous wait of 777ns is
reset; after three failures the third sleep is baseline * 2. -/
theorem C1_amended_witness :
    ((runCycle { botEx with reconnectWaitTime := 777 }
        { connectFailures := 3, reads := [] }).2.sleeps)[2]? =
      some (second * 2 ^ 1) :=
  (C1_amended_backoff { botEx with reconnectWaitTime := 777 }
    { connectFailures := 3, reads := [] } 3 (by decide) (by decide)).2.1

/-- A cycle whose read stream delivers the authentication-failure line. -/
def cycleAuth : CycleInput :=
  { connectFailures := 0,
    reads := [ReadEvent.line authenticationErrorMessage (Except.ok "unused")] }

/-- A cycle with one dial failure whose first read then fails. -/
def cycleErr : CycleInput :=
  { connectFailures := 1, reads := [ReadEvent.readError] }

/-- C3: the server-reported authentication failure is the single
non-retryable failure — reading that exact line makes the listen loop
return nil at once, and `Start` then performs no further connection cycle
— whereas a read error ends the cycle with an error, the deferred
disconnect closes the transport, and `Start` restarts the whole cycle from
connect with the reconnect wait reset to zero before the first new
attempt. -/
theorem C3_auth_terminal_read_error_reconnects :
    (∀ (bot : BotState) (f : Except String String),
        processLine bot f authenticationErrorMessage =
          { bot := bot, rawWrites := [], terminated := true }) ∧
    (∀ (bot : BotState) (f : Except String String) (evs : List ReadEvent),
        listenLoop bot (ReadEvent.line authenticationErrorMessage f :: evs) =
          (bot, [], some ListenOutcome.cleanExit)) ∧
    (∀ (bot : BotState) (evs : List ReadEvent),
        listenLoop bot (ReadEvent.readError :: evs) =
          (bot, [], some ListenOutcome.readFailure)) ∧
    (∀ (bot : BotState) (c : CycleInput) (rest : List CycleInput),
        (runCycle bot c).2.outcome = some ListenOutcome.cleanExit →
        startRun bot (c :: rest) = [(runCycle bot c).2]) ∧
    (∀ (bot : BotState) (c : CycleInput) (rest : List CycleInput),
        (runCycle bot c).2.outcome = some ListenOutcome.readFailure →
        (runCycle bot c).2.disconnected = true ∧
        startRun bot (c :: rest) =
          (runCycle bot c).2 :: startRun (runCycle bot c).1 rest) ∧
    (∀ (bot : BotState) (c : CycleInput),
        (runCycle bot c).2.sleeps = (connectRun 0 c.connectFailures).1) := by
  refine ⟨fun bot f => rfl, fun bot f evs => rfl, fun bot evs => rfl, ?_, ?_,
    fun bot c => rfl⟩
  · intro bot c rest h
    simp only [startRun]
    rw [h]
  · intro bot c rest h
    have hd : (runCycle bot c).2.disconnected =
        ((runCycle bot c).2.outcome).isSome := rfl
    refine ⟨by rw [hd, h]; rfl, ?_⟩
    simp only [startRun]
    rw [h]

/-- Witness for C3: an authentication-failure cycle runs alone; a
read-error cycle disconnects and is followed by the next cycle. -/
theorem C3_witness :
    startRun botEx [cycleAuth] = [(runCycle botEx cycleAuth).2] ∧
    (runCycle botEx cycleErr).2.disconnected = true ∧
    startRun botEx [cycleErr, cycleAuth] =
      (runCycle botEx cycleErr).2 ::
        startRun (runCycle botEx cycleErr).1 [cycleAuth] := by
  have h4 := C3_auth_terminal_read_error_reconnects.2.2.2.1 botEx cycleAuth []
    (by decide)
  have h5 := C3_auth_terminal_read_error_reconnects.2.2.2.2.1 botEx cycleErr
    [cycleAuth] (by decide)
  exact ⟨h4, h5.1, h5.2⟩

end Chuckbot
